import Mathlib

/-!
Verification development for the famelia-tasting repository: two HTTP
handlers (an app-proxy route, file src/unnamed/part_000, and a direct
route, file src/app/proxy/save/route.js) that read, merge and write a
JSON tasting-notes document stored in a customer metafield.

Conventions of the shallow embedding:
- Byte strings (raw request bodies, secrets, header values, digests) are
  `List Nat` with entries below 256.
- JavaScript numbers that can be NaN are `Option Int` (`none` models NaN);
  product ids are integers in this system, so fractional values are
  outside the model.
- Remote round-trips are modelled by passing each call outcome
  (`GqlResp`) as an argument; a thrown JS exception is `Except.error`.
-/

/-! ## SHA-256, HMAC, base64 (crypto.createHmac("sha256", secret).update(raw).digest("base64")) -/

/-- Truncation to a 32-bit word. -/
def w32 (n : Nat) : Nat := n % 4294967296

/-- 32-bit right rotation. -/
def rotr32 (x n : Nat) : Nat := w32 ((x >>> n) ||| (x <<< (32 - n)))

/-- SHA-256 big sigma 0. -/
def bsig0 (x : Nat) : Nat := rotr32 x 2 ^^^ rotr32 x 13 ^^^ rotr32 x 22

/-- SHA-256 big sigma 1. -/
def bsig1 (x : Nat) : Nat := rotr32 x 6 ^^^ rotr32 x 11 ^^^ rotr32 x 25

/-- SHA-256 small sigma 0. -/
def ssig0 (x : Nat) : Nat := rotr32 x 7 ^^^ rotr32 x 18 ^^^ (x >>> 3)

/-- SHA-256 small sigma 1. -/
def ssig1 (x : Nat) : Nat := rotr32 x 17 ^^^ rotr32 x 19 ^^^ (x >>> 10)

/-- SHA-256 choice function; 4294967295 is the 32-bit all-ones mask. -/
def chF (x y z : Nat) : Nat := (x &&& y) ^^^ ((x ^^^ 4294967295) &&& z)

/-- SHA-256 majority function. -/
def majF (x y z : Nat) : Nat := (x &&& y) ^^^ (x &&& z) ^^^ (y &&& z)

/-- The 64 SHA-256 round constants. -/
def sha256K : List Nat :=
  [1116352408, 1899447441, 3049323471, 3921009573, 961987163, 1508970993,
   2453635748, 2870763221, 3624381080, 310598401, 607225278, 1426881987,
   1925078388, 2162078206, 2614888103, 3248222580, 3835390401, 4022224774,
   264347078, 604807628, 770255983, 1249150122, 1555081692, 1996064986,
   2554220882, 2821834349, 2952996808, 3210313671, 3336571891, 3584528711,
   113926993, 338241895, 666307205, 773529912, 1294757372, 1396182291,
   1695183700, 1986661051, 2177026350, 2456956037, 2730485921, 2820302411,
   3259730800, 3345764771, 3516065817, 3600352804, 4094571909, 275423344,
   430227734, 506948616, 659060556, 883997877, 958139571, 1322822218,
   1537002063, 1747873779, 1955562222, 2024104815, 2227730452, 2361852424,
   2428436474, 2756734187, 3204031479, 3329325298]

/-- SHA-256 working state: eight 32-bit words. -/
structure Sha256State where
  a : Nat
  b : Nat
  c : Nat
  d : Nat
  e : Nat
  f : Nat
  g : Nat
  h : Nat
deriving DecidableEq, Repr

/-- SHA-256 initial hash value. -/
def sha256Init : Sha256State :=
  ⟨1779033703, 3144134277, 1013904242, 2773480762,
   1359893119, 2600822924, 528734635, 1541459225⟩

/-- One SHA-256 compression round. -/
def sha256Round (s : Sha256State) (k w : Nat) : Sha256State :=
  let t1 := w32 (s.h + bsig1 s.e + chF s.e s.f s.g + k + w)
  let t2 := w32 (bsig0 s.a + majF s.a s.b s.c)
  ⟨w32 (t1 + t2), s.a, s.b, s.c, w32 (s.d + t1), s.e, s.f, s.g⟩

/-- Extend a 16-word block to the 64-word message schedule. -/
def sha256Schedule (block : List Nat) : List Nat :=
  (List.range 48).foldl
    (fun acc _ =>
      let n := acc.length
      acc ++ [w32 (ssig1 (acc.getD (n - 2) 0) + acc.getD (n - 7) 0 +
                   ssig0 (acc.getD (n - 15) 0) + acc.getD (n - 16) 0)])
    block

/-- Compress one 16-word block into the state. -/
def sha256Compress (st : Sha256State) (block : List Nat) : Sha256State :=
  let ws := sha256Schedule block
  let r := (sha256K.zip ws).foldl (fun s kw => sha256Round s kw.1 kw.2) st
  ⟨w32 (st.a + r.a), w32 (st.b + r.b), w32 (st.c + r.c), w32 (st.d + r.d),
   w32 (st.e + r.e), w32 (st.f + r.f), w32 (st.g + r.g), w32 (st.h + r.h)⟩

/-- Group bytes into big-endian 32-bit words (input length a multiple of 4). -/
def bytesToWords : List Nat → List Nat
  | b0 :: b1 :: b2 :: b3 :: rest => (((b0 * 256 + b1) * 256 + b2) * 256 + b3) :: bytesToWords rest
  | _ => []

/-- Big-endian 8-byte encoding of a natural number. -/
def be64 (n : Nat) : List Nat :=
  [(n >>> 56) % 256, (n >>> 48) % 256, (n >>> 40) % 256, (n >>> 32) % 256,
   (n >>> 24) % 256, (n >>> 16) % 256, (n >>> 8) % 256, n % 256]

/-- SHA-256 padding: append 0x80, zeros, and the 64-bit big-endian bit length. -/
def sha256Pad (msg : List Nat) : List Nat :=
  msg ++ [0x80] ++ List.replicate ((64 + 55 - msg.length % 64) % 64) 0 ++ be64 (8 * msg.length)

/-- Fold the compression function over consecutive 16-word blocks. -/
def sha256Blocks (st : Sha256State) : List Nat → Sha256State
  | w0 :: w1 :: w2 :: w3 :: w4 :: w5 :: w6 :: w7 ::
    w8 :: w9 :: w10 :: w11 :: w12 :: w13 :: w14 :: w15 :: rest =>
      sha256Blocks
        (sha256Compress st [w0, w1, w2, w3, w4, w5, w6, w7, w8, w9, w10, w11, w12, w13, w14, w15])
        rest
  | _ => st

/-- Serialize eight 32-bit words to 32 big-endian bytes. -/
def wordsToBytes (ws : List Nat) : List Nat :=
  ws.flatMap (fun w => [(w >>> 24) % 256, (w >>> 16) % 256, (w >>> 8) % 256, w % 256])

/-- SHA-256 of a byte string. -/
def sha256 (msg : List Nat) : List Nat :=
  let f := sha256Blocks sha256Init (bytesToWords (sha256Pad msg))
  wordsToBytes [f.a, f.b, f.c, f.d, f.e, f.f, f.g, f.h]

/-- HMAC-SHA256 with a byte-string key (block size 64). -/
def hmacSha256 (key msg : List Nat) : List Nat :=
  let k0 := if 64 < key.length then sha256 key else key
  let kp := k0 ++ List.replicate (64 - k0.length) 0
  sha256 ((kp.map (fun b => b ^^^ 0x5c)) ++ sha256 ((kp.map (fun b => b ^^^ 0x36)) ++ msg))

/-- The base64 alphabet as ASCII codes. -/
def b64Alpha : List Nat :=
  "ABCDEFGHIJKLMNOPQRSTUVWXYZabcdefghijklmnopqrstuvwxyz0123456789+/".data.map Char.toNat

/-- Base64 encoding of a byte string, as ASCII codes (61 is the pad character). -/
def base64Encode : List Nat → List Nat
  | b0 :: b1 :: b2 :: rest =>
      b64Alpha.getD (b0 >>> 2) 0 ::
      b64Alpha.getD (((b0 &&& 3) <<< 4) ||| (b1 >>> 4)) 0 ::
      b64Alpha.getD (((b1 &&& 15) <<< 2) ||| (b2 >>> 6)) 0 ::
      b64Alpha.getD (b2 &&& 63) 0 :: base64Encode rest
  | [b0, b1] =>
      [b64Alpha.getD (b0 >>> 2) 0,
       b64Alpha.getD (((b0 &&& 3) <<< 4) ||| (b1 >>> 4)) 0,
       b64Alpha.getD ((b1 &&& 15) <<< 2) 0, 61]
  | [b0] =>
      [b64Alpha.getD (b0 >>> 2) 0, b64Alpha.getD ((b0 &&& 3) <<< 4) 0, 61, 61]
  | [] => []

/-- crypto.createHmac("sha256", secret).update(rawBody).digest("base64"), as ASCII codes. -/
def hmacSha256Base64 (secret rawBody : List Nat) : List Nat :=
  base64Encode (hmacSha256 secret rawBody)

/-- verifyProxySignature from src/unnamed/part_000: read the
x-shopify-proxy-signature header (missing header yields the empty string via
the JS or-default), compute the base64 HMAC-SHA256 digest of the raw body,
then compare.  crypto.timingSafeEqual compares bytewise when the buffer
lengths agree and throws otherwise; the catch branch falls back to the JS
strict string comparison.  Header values and digests are byte strings here. -/
def verifyProxySignature (secret : List Nat) (sigHeader : Option (List Nat))
    (rawBody : List Nat) : Bool :=
  let sig := sigHeader.getD []
  let digest := hmacSha256Base64 secret rawBody
  if digest.length = sig.length then digest == sig else digest == sig

/-! ## JavaScript value helpers -/

/-- The submitted product_id as a JavaScript value: a number (integral in
this system), a string, or any other value (undefined, null, ...), which the
relevant operations treat alike. -/
inductive PVal where
  | num (n : Int)
  | str (s : String)
  | undef
deriving DecidableEq, Repr

/-- A submitted rating as a JavaScript value: only `typeof x === "number"`
matters, so non-numbers are collapsed into `other`.  JS numbers are floats;
ratings are modelled as rationals (NaN ratings are outside the model). -/
inductive JVal where
  | num (x : Rat)
  | str (s : String)
  | other
deriving DecidableEq, Repr

/-- JS truthiness of the submitted product_id (`!product?.product_id`):
0 and the empty string are falsy, as are undefined and null. -/
def PVal.truthy : PVal → Bool
  | .num n => n != 0
  | .str s => s != ""
  | .undef => false

/-- JS `String.prototype.trim()`, modelled on characters. -/
def jsTrim (s : String) : String :=
  String.mk (((s.data.dropWhile Char.isWhitespace).reverse.dropWhile Char.isWhitespace).reverse)

/-- Value of a digit string, when every character is a decimal digit. -/
def digitsVal (cs : List Char) : Option Nat :=
  if cs ≠ [] && cs.all (fun c => c.isDigit) then
    some (cs.foldl (fun a c => a * 10 + (c.toNat - 48)) 0)
  else none

/-- JS `Number(x)` restricted to this system's inputs: numbers pass through,
a trimmed empty string is 0, a string of decimal digits with optional sign
is its value, and everything else (including undefined) is NaN (`none`).
Fractional, exponential and hexadecimal numeric strings are outside the
model, since product ids are integers. -/
def jsNumber : PVal → Option Int
  | .num n => some n
  | .str s =>
      let t := jsTrim s
      if t = "" then some 0
      else
        match t.data with
        | '-' :: rest => (digitsVal rest).map (fun n => -(n : Int))
        | '+' :: rest => (digitsVal rest).map (fun n => (n : Int))
        | cs => (digitsVal cs).map (fun n => (n : Int))
  | .undef => none

/-- JS `x || ""` for an optional string field (absent and empty both give ""). -/
def jsOrEmpty : Option String → String
  | some s => s
  | none => ""

/-- JS `a || b` for an optional string with a string default: a present
non-empty string wins, otherwise the default. -/
def jsOrStr : Option String → String → String
  | some s, d => if s = "" then d else s
  | none, d => d

/-- JS truthiness of an optional string (used for required-field checks). -/
def truthyOptStr : Option String → Bool
  | some s => s != ""
  | none => false

/-- JS `String.prototype.slice(0, n)`, modelled on characters. -/
def jsSlice (s : String) (n : Nat) : String := String.mk (s.data.take n)

/-- JS `String.prototype.toLowerCase()` (ASCII-faithful). -/
def jsLower (s : String) : String := String.mk (s.data.map Char.toLower)

/-- JS `Array.prototype.findIndex`: index of the first element satisfying
the predicate; `none` models -1. -/
def jsFindIndex (p : α → Bool) : List α → Option Nat
  | [] => none
  | x :: xs => if p x then some 0 else (jsFindIndex p xs).map (fun i => i + 1)

/-- Replace the element at an index, leaving everything else unchanged
(the effect of assigning through the reference returned by `find` /
of `arr[idx] = entry`). -/
def listModify (f : α → α) : List α → Nat → List α
  | [], _ => []
  | x :: xs, 0 => f x :: xs
  | x :: xs, n + 1 => x :: listModify f xs n

/-! ## Data model -/

/-- A wine entry of the stored document.  `product_id` is `Number(...)` of
the submitted value, so it can be NaN (`none`). -/
structure WineEntry where
  product_id : Option Int
  handle : String
  title : String
  rating : Option Rat
  note : String
  updated_at : String
deriving DecidableEq, Repr

/-- A tasting event of the stored document. -/
structure TastingEvent where
  id : String
  name : String
  date : String
  collection_handle : String
  wines : List WineEntry
deriving DecidableEq, Repr

/-- The stored document: `{ events: [...] }`. -/
structure Store where
  events : List TastingEvent
deriving DecidableEq, Repr

/-- The submitted product object `{product_id, handle?, title?, rating?, note?}`.
Accessing a missing field yields undefined: absent optional fields are `none`. -/
structure Product where
  product_id : PVal
  handle : Option String
  title : Option String
  rating : Option JVal
  note : Option String
deriving DecidableEq, Repr

/-- The product object destructured from an empty payload. -/
def emptyProduct : Product := ⟨.undef, none, none, none, none⟩

/-! ## Remote calls -/

/-- The observable outcome of one fetch to the GraphQL endpoint:
`resOk` is `res.ok`, `errors` is the stringified `json.errors` when that
field is present (and truthy), `rawJson` is `JSON.stringify(json)`, and
`data` is the parsed `json.data` as seen through the handler's optional
chains. -/
structure GqlResp (α : Type) where
  resOk : Bool
  errors : Option String
  rawJson : String
  data : α
deriving DecidableEq, Repr

/-- Whether `shopifyGraphQL` throws for this response (`!res.ok || json.errors`). -/
def gqlFail (r : GqlResp α) : Bool := !r.resOk || r.errors.isSome

/-- The thrown message, `JSON.stringify(json.errors || json)`. -/
def gqlMsg (r : GqlResp α) : String := r.errors.getD r.rawJson

/-- shopifyGraphQL from both source files: throw when the response is not
ok or reports errors, otherwise return the data. -/
def shopifyGraphQL (r : GqlResp α) : Except String α :=
  if gqlFail r then .error (gqlMsg r) else .ok r.data

/-- The metafield value as the handler sees it after the optional chains
and the guarded JSON.parse: `absent` covers a null customer, metafield or
falsy value; `malformed` is a present value whose parse throws; `stored`
is a parsed document. -/
inductive StoredVal where
  | absent
  | malformed
  | stored (s : Store)
deriving DecidableEq, Repr

/-- `let store = {events: []}; if (mf?.value) { try { store = JSON.parse(mf.value) } catch {} }`. -/
def loadStore : StoredVal → Store
  | .absent => ⟨[]⟩
  | .malformed => ⟨[]⟩
  | .stored s => s

/-- A remote round-trip performed by a handler, with the document sent on
writes. -/
inductive RCall where
  | verifyEmail
  | readField
  | writeField (value : Store)
deriving DecidableEq, Repr

/-- An HTTP response body: every body either handler constructs is
`JSON.stringify({ok:true})` or `JSON.stringify({ok:false, error: msg})`. -/
inductive RespBody where
  | okTrue
  | okFalse (error : String)
deriving DecidableEq, Repr

/-- An HTTP response (headers are not modelled). -/
structure Response where
  status : Nat
  body : RespBody
deriving DecidableEq, Repr

/-- The `bad(msg, code)` helper of src/app/proxy/save/route.js (the default
code 400 is written explicitly at call sites). -/
def bad (msg : String) (code : Nat) : Response := ⟨code, .okFalse msg⟩

/-! ## The merge (step 2 of part_000, step 5 of route.js) -/

/-- The replacement entry built by both handlers. -/
def mkEntry (p : Product) (now : String) : WineEntry :=
  { product_id := jsNumber p.product_id
    handle := jsOrEmpty p.handle
    title := jsOrEmpty p.title
    rating := match p.rating with
      | some (.num x) => some x
      | _ => none
    note := jsSlice (jsOrEmpty p.note) 2000
    updated_at := now }

/-- `e.collection_handle === event_handle`. -/
def eventMatch (eh : String) (e : TastingEvent) : Bool := e.collection_handle == eh

/-- `if (idx === -1) evt.wines.push(entry); else evt.wines[idx] = entry;`
after `const idx = evt.wines.findIndex(...)`. -/
def updateWines (m : WineEntry → Bool) (wines : List WineEntry) (entry : WineEntry) :
    List WineEntry :=
  match jsFindIndex m wines with
  | some i => wines.set i entry
  | none => wines ++ [entry]

/-- The shared shape of the two merge blocks: find the event by
collection_handle (mutating the found array element in place, i.e.
modifying at the first matching index) or push a fresh event; then find
the wine entry using the variant's findIndex predicate and replace or
push.  The two source files differ only in that predicate. -/
def mergeCore (wineMatch : PVal → WineEntry → Bool) (store : Store) (eh : String)
    (en : Option String) (p : Product) (now : String) : Store :=
  let entry := mkEntry p now
  match jsFindIndex (eventMatch eh) store.events with
  | some j =>
      ⟨listModify
        (fun e => ⟨e.id, e.name, e.date, e.collection_handle,
                   updateWines (wineMatch p.product_id) e.wines entry⟩)
        store.events j⟩
  | none =>
      ⟨store.events ++
        [⟨eh, jsOrStr en eh, jsSlice now 10, eh,
          updateWines (wineMatch p.product_id) [] entry⟩]⟩

namespace ProxyRoute

/-- Wine lookup of src/unnamed/part_000:
`w.product_id === product.product_id` — the stored number is compared with
the raw submitted value by JS strict equality, so a stored number never
matches a submitted string, and NaN matches nothing. -/
def wineMatch (pid : PVal) (w : WineEntry) : Bool :=
  match w.product_id, pid with
  | some a, .num b => a == b
  | _, _ => false

/-- The merge block of src/unnamed/part_000 (step 2). -/
def merge : Store → String → Option String → Product → String → Store :=
  mergeCore wineMatch

end ProxyRoute

namespace DirectRoute

/-- Wine lookup of src/app/proxy/save/route.js:
`w.product_id === Number(product.product_id)`; NaN matches nothing. -/
def wineMatch (pid : PVal) (w : WineEntry) : Bool :=
  match w.product_id, jsNumber pid with
  | some a, some b => a == b
  | _, _ => false

/-- The merge block of src/app/proxy/save/route.js (step 5). -/
def merge : Store → String → Option String → Product → String → Store :=
  mergeCore wineMatch

end DirectRoute

/-! ## The handlers -/

/-- The proxy request body after `JSON.parse` and `payload || {}`
destructuring (a failed parse or a falsy parse result gives the empty
payload, i.e. all fields undefined). -/
structure Payload where
  event_handle : Option String
  event_name : Option String
  product : Option Product
deriving DecidableEq, Repr

/-- The empty payload `{}`. -/
def emptyPayload : Payload := ⟨none, none, none⟩

/-- `!event_handle || !product?.product_id` (negated): the proxy handler's
required-field check. -/
def proxyFieldsOk (pl : Payload) : Bool :=
  truthyOptStr pl.event_handle &&
    (match pl.product with
     | some pr => pr.product_id.truthy
     | none => false)

namespace ProxyRoute

/-- POST of src/unnamed/part_000.  Request data and the outcome of each
remote round-trip are arguments; the returned trace lists the remote calls
made, in order, with the document sent on the write.  An uncaught JS
exception is `Except.error`. -/
def POST (secret : List Nat) (loggedInCustomerId : Option String)
    (sigHeader : Option (List Nat)) (rawBody : List Nat) (payload : Option Payload)
    (readResp : GqlResp StoredVal) (writeResp : GqlResp (List String))
    (now : String) : Except String Response × List RCall :=
  if verifyProxySignature secret sigHeader rawBody then
    if truthyOptStr loggedInCustomerId then
      let pl := payload.getD emptyPayload
      if proxyFieldsOk pl then
        match shopifyGraphQL readResp with
        | .error m => (.error m, [.readField])
        | .ok sv =>
          let store := loadStore sv
          let store2 := merge store (jsOrEmpty pl.event_handle) pl.event_name
            (pl.product.getD emptyProduct) now
          match shopifyGraphQL writeResp with
          | .error m => (.error m, [.readField, .writeField store2])
          | .ok errs =>
            if errs.length != 0 then
              (.ok ⟨500, .okFalse (String.intercalate "; " errs)⟩,
               [.readField, .writeField store2])
            else (.ok ⟨200, .okTrue⟩, [.readField, .writeField store2])
      else (.ok ⟨400, .okFalse "Missing event or product"⟩, [])
    else (.ok ⟨401, .okFalse "Not logged in"⟩, [])
  else (.ok ⟨401, .okFalse "Bad signature"⟩, [])

end ProxyRoute

/-- The direct request body after `await request.json()` and `body || {}`
destructuring.  Identity fields are modelled as strings (non-string JSON
values in them are outside the model). -/
structure DirectBody where
  shop : Option String
  customer_id : Option String
  customer_email : Option String
  event_handle : Option String
  event_name : Option String
  product : Option Product
deriving DecidableEq, Repr

/-- The required-field check of route.js:
`!shop || !customer_id || !customer_email || !event_handle || !product?.product_id`
(negated). -/
def directFieldsOk (b : DirectBody) : Bool :=
  truthyOptStr b.shop && truthyOptStr b.customer_id && truthyOptStr b.customer_email &&
    truthyOptStr b.event_handle &&
    (match b.product with
     | some pr => pr.product_id.truthy
     | none => false)

/-- The fixed allow-list `ALLOWED_ORIGINS` (a JS Set; membership below). -/
def allowedOrigins (shop : String) : List String :=
  ["https://" ++ shop, "https://famelia.com", "https://www.famelia.com"]

/-- `ALLOWED_ORIGINS.has(request.headers.get("origin"))`; a missing header
is null and never a member. -/
def originAllowed (shop : String) : Option String → Bool
  | some o => (allowedOrigins shop).contains o
  | none => false

/-- `!realEmail || realEmail.toLowerCase() !== String(customer_email).toLowerCase()`:
the direct handler's identity rejection condition (`none` models a null
customer or null email). -/
def emailRejects (realEmail : Option String) (supplied : String) : Bool :=
  match realEmail with
  | none => true
  | some e => e == "" || jsLower e != jsLower supplied

namespace DirectRoute

/-- POST of src/app/proxy/save/route.js.  `body = none` models a JSON body
whose parse throws (caught, answered with 400); a parse yielding a falsy
value destructures like the all-absent body.  The outcome of each remote
round-trip is an argument; the trace lists the calls made in order. -/
def POST (shop : String) (origin : Option String) (body : Option DirectBody)
    (emailResp : GqlResp (Option String)) (readResp : GqlResp StoredVal)
    (writeResp : GqlResp (List String)) (now : String) :
    Except String Response × List RCall :=
  if originAllowed shop origin then
    match body with
    | none => (.ok (bad "Invalid JSON" 400), [])
    | some b =>
      if directFieldsOk b then
        match shopifyGraphQL emailResp with
        | .error m => (.error m, [.verifyEmail])
        | .ok realEmail =>
          if emailRejects realEmail (jsOrEmpty b.customer_email) then
            (.ok (bad "Customer verification failed" 401), [.verifyEmail])
          else
            match shopifyGraphQL readResp with
            | .error m => (.error m, [.verifyEmail, .readField])
            | .ok sv =>
              let store := loadStore sv
              let store2 := merge store (jsOrEmpty b.event_handle) b.event_name
                (b.product.getD emptyProduct) now
              match shopifyGraphQL writeResp with
              | .error m => (.error m, [.verifyEmail, .readField, .writeField store2])
              | .ok errs =>
                if errs.length != 0 then
                  (.ok (bad (String.intercalate "; " errs) 500),
                   [.verifyEmail, .readField, .writeField store2])
                else (.ok ⟨200, .okTrue⟩, [.verifyEmail, .readField, .writeField store2])
      else (.ok (bad "Missing required fields" 400), [])
  else (.ok (bad "Origin not allowed" 401), [])

end DirectRoute

deriving instance DecidableEq for Except

/-! ## Uniqueness invariants of the stored document (spec section 3) -/

/-- At most one wine entry per distinct (non-NaN) product_id. -/
def winesPidDistinct (ws : List WineEntry) : Prop :=
  List.Pairwise (fun a b => a.product_id = none ∨ a.product_id ≠ b.product_id) ws

instance (ws : List WineEntry) : Decidable (winesPidDistinct ws) := by
  unfold winesPidDistinct
  infer_instance

/-- At most one event per distinct collection_handle, and within each event
at most one entry per distinct product_id. -/
def storeInvariant (s : Store) : Prop :=
  List.Pairwise (fun a b => a.collection_handle ≠ b.collection_handle) s.events ∧
  ∀ e ∈ s.events, winesPidDistinct e.wines

instance (s : Store) : Decidable (storeInvariant s) := by
  unfold storeInvariant
  infer_instance

/-! ## Concrete inputs used by individual claims -/

/-- A store holding one event with one entry for product 123 (claim C1). -/
def c1Store : Store :=
  ⟨[⟨"ev", "Ev", "2024-01-01", "ev",
     [⟨some 123, "h", "t", none, "old", "2024-01-01T00:00:00.000Z"⟩]⟩]⟩

/-- A resubmission for product 123 whose product_id arrives as the JSON
string "123" (claim C1). -/
def c1Product : Product := ⟨.str "123", some "h", some "t", none, some "new"⟩

/-- A store holding one event with one entry for product 55 (claim C2). -/
def c2Store : Store :=
  ⟨[⟨"tasting-1", "Tasting 1", "2024-03-01", "tasting-1",
     [⟨some 55, "", "", none, "first", "2024-03-01T00:00:00.000Z"⟩]⟩]⟩

/-- A resubmission for product 55 with a string product_id (claim C2). -/
def c2Product : Product := ⟨.str "55", none, none, none, some "second"⟩

/-- A well-formed direct-endpoint body (claim C3). -/
def c3Body : DirectBody :=
  ⟨some "famelia-wine.myshopify.com", some "777", some "a@b.com", some "ev", none,
   some ⟨.num 101, none, none, none, some "nice"⟩⟩

/-- A submission product (claim C4). -/
def c4Product : Product := ⟨.num 7, none, none, none, none⟩

/-- A note of 2001 characters (claim C5). -/
def c5Note : String := String.mk (List.replicate 2001 'a')

/-- A submission carrying the long note (claim C5). -/
def c5Product : Product := ⟨.num 5, none, none, some (.str "good"), some c5Note⟩

/-- A proxy payload used to run a request end to end (claim C6). -/
def c6Payload : Payload := ⟨some "ev", none, some ⟨.num 3, none, none, none, none⟩⟩

/-- A well-formed direct-endpoint body (claim C8). -/
def c8Body : DirectBody :=
  ⟨some "famelia-wine.myshopify.com", some "9", some "a@b.com", some "ev", none,
   some ⟨.num 101, none, none, none, none⟩⟩

/-- A store with two events (claim C10). -/
def c10Store : Store :=
  ⟨[⟨"a", "A", "2024-01-01", "a", [⟨some 1, "", "", none, "", "x"⟩]⟩,
    ⟨"b", "B", "2024-01-02", "b", [⟨some 2, "", "", none, "", "y"⟩]⟩]⟩

/-- A resubmission into the second event (claim C10). -/
def c10Product : Product := ⟨.num 2, none, none, none, some "updated"⟩

/-! ## Helper lemmas -/

theorem jsFindIndex_eq_none {p : α → Bool} {l : List α}
    (h : ∀ x ∈ l, p x = false) : jsFindIndex p l = none := by
  induction l with
  | nil => rfl
  | cons x xs ih =>
      simp only [jsFindIndex, h x (List.mem_cons_self x xs)]
      simp [ih (fun y hy => h y (List.mem_cons_of_mem x hy))]

theorem jsFindIndex_some_lt {p : α → Bool} {l : List α} {i : Nat}
    (h : jsFindIndex p l = some i) : i < l.length := by
  induction l generalizing i with
  | nil => exact absurd h (by simp [jsFindIndex])
  | cons x xs ih =>
      rw [jsFindIndex] at h
      by_cases hx : p x
      · rw [if_pos hx] at h
        obtain rfl : (0 : Nat) = i := by injection h
        simp [List.length_cons]
      · rw [if_neg hx] at h
        cases hrec : jsFindIndex p xs with
        | none => rw [hrec] at h; cases h
        | some i0 =>
            rw [hrec] at h
            obtain rfl : i0 + 1 = i := by injection h
            have := ih hrec
            simp only [List.length_cons]
            omega

theorem listModify_length (f : α → α) (l : List α) (j : Nat) :
    (listModify f l j).length = l.length := by
  induction l generalizing j with
  | nil => rfl
  | cons x xs ih =>
      cases j with
      | zero => rfl
      | succ n => simpa [listModify] using ih n

theorem getElem?_listModify_ne (f : α → α) {i j : Nat} (l : List α) (hij : i ≠ j) :
    (listModify f l j)[i]? = l[i]? := by
  induction l generalizing i j with
  | nil => rfl
  | cons x xs ih =>
      cases j with
      | zero =>
          cases i with
          | zero => exact absurd rfl hij
          | succ m => simp [listModify, List.getElem?_cons_succ]
      | succ n =>
          cases i with
          | zero => simp [listModify, List.getElem?_cons_zero]
          | succ m =>
              simp only [listModify, List.getElem?_cons_succ]
              exact ih (fun hc => hij (by simp [hc]))

theorem getElem?_listModify_self (f : α → α) (l : List α) (j : Nat) :
    (listModify f l j)[j]? = (l[j]?).map f := by
  induction l generalizing j with
  | nil => rfl
  | cons x xs ih =>
      cases j with
      | zero => simp [listModify, List.getElem?_cons_zero]
      | succ n =>
          simp only [listModify, List.getElem?_cons_succ]
          exact ih n

theorem mem_set_self {l : List α} {i : Nat} (a : α) (h : i < l.length) :
    a ∈ l.set i a := by
  induction l generalizing i with
  | nil => exact absurd h (by simp)
  | cons x xs ih =>
      cases i with
      | zero => simp [List.set_cons_zero]
      | succ n =>
          rw [List.set_cons_succ]
          refine List.mem_cons.mpr (Or.inr ?_)
          refine ih ?_
          have hlen : n + 1 < xs.length + 1 := by simpa [List.length_cons] using h
          omega

theorem length_jsSlice (s : String) (n : Nat) : (jsSlice s n).length = min n s.length := by
  cases s with
  | mk data =>
      show (data.take n).length = min n data.length
      exact List.length_take n data

theorem jsSlice_of_le {s : String} {n : Nat} (h : s.length ≤ n) : jsSlice s n = s := by
  cases s with
  | mk data =>
      simp only [jsSlice]
      rw [List.take_of_length_le (by simpa [String.length] using h)]

theorem jsLower_ne_empty {s : String} (h : s ≠ "") : jsLower s ≠ "" := by
  intro hc
  apply h
  have hdata : s.data.map Char.toLower = [] := congrArg String.data hc
  have : s.data = [] := List.map_eq_nil_iff.mp hdata
  cases s with
  | mk data => cases this; rfl

theorem emailRejects_iff (v : Option String) (sup : String) (hs : sup ≠ "") :
    emailRejects v sup = true ↔ ∀ e, v = some e → jsLower e ≠ jsLower sup := by
  cases v with
  | none => simp [emailRejects]
  | some e =>
      simp only [emailRejects, Bool.or_eq_true, beq_iff_eq, bne_iff_ne]
      constructor
      · rintro (he | hne) e0 he0
        · cases he0
          cases he
          exact fun hc => jsLower_ne_empty hs hc.symm
        · cases he0
          exact hne
      · intro hall
        exact Or.inr (hall e rfl)

set_option maxRecDepth 100000

/-! ## Claims -/

/-- C1: the claim states that for every store satisfying the uniqueness
invariants and every valid submission, the merged store again has at most
one event per collection_handle and at most one entry per distinct numeric
product_id.  This fails on the proxy route: its findIndex compares the
stored number against the raw submitted value with JS strict equality, so
resubmitting product 123 with the JSON string "123" (a valid, truthy
product_id whose numeric coercion is 123) appends a second entry with the
same numeric product_id instead of matching the existing one. -/
theorem C1_proxy_resubmission_creates_duplicate_product_id :
    storeInvariant c1Store ∧
    (PVal.str "123").truthy = true ∧
    ((ProxyRoute.merge c1Store "ev" none c1Product "2024-02-02T00:00:00.000Z").events.map
      (fun e => e.wines.map (fun w => w.product_id))) = [[some 123, some 123]] ∧
    ¬ storeInvariant (ProxyRoute.merge c1Store "ev" none c1Product "2024-02-02T00:00:00.000Z") :=
  ⟨by decide, by decide, by decide, by decide⟩

/-- C2: the claim states that a submission whose (event_handle, product_id)
pair already has an entry replaces that entry in place, and that repeated
identical submissions are idempotent.  On the proxy route a submission with
a string product_id whose numeric value 55 is already present appends
instead of replacing, and applying the same submission twice differs from
applying it once. -/
theorem C2_proxy_resubmission_appends_instead_of_replacing :
    (c2Store.events.map (fun e => e.wines.map (fun w => w.product_id))) = [[some 55]] ∧
    jsNumber (PVal.str "55") = some 55 ∧
    ((ProxyRoute.merge c2Store "tasting-1" none c2Product "2024-03-02T00:00:00.000Z").events.map
      (fun e => e.wines.map (fun w => w.product_id))) = [[some 55, some 55]] ∧
    ProxyRoute.merge
        (ProxyRoute.merge c2Store "tasting-1" none c2Product "2024-03-02T00:00:00.000Z")
        "tasting-1" none c2Product "2024-03-02T00:00:00.000Z" ≠
      ProxyRoute.merge c2Store "tasting-1" none c2Product "2024-03-02T00:00:00.000Z" :=
  ⟨by decide, by decide, by decide, by decide⟩

/-- C4 (counterexample): the claim states the appended event's name is the
supplied event_name if present, else event_handle.  Supplying the present
but empty event_name "" yields name "spring-2024" (the event_handle), not
"", because the source uses the JS or-operator, which treats "" as absent. -/
theorem C4_counterexample_empty_event_name_not_used :
    ((DirectRoute.merge ⟨[]⟩ "spring-2024" (some "") c4Product
        "2024-05-05T12:00:00.000Z").events.map (fun e => e.name)) = ["spring-2024"] ∧
    ¬ ((DirectRoute.merge ⟨[]⟩ "spring-2024" (some "") c4Product
        "2024-05-05T12:00:00.000Z").events.map (fun e => e.name)) = [""] :=
  ⟨by decide, by decide⟩

/-- C4 (amended): for either route's merge, if no event of the store has the
submitted collection_handle, exactly one new event is appended after the
existing events, with id and collection_handle equal to event_handle, date
equal to the first ten characters of the current ISO instant, a wine list
holding exactly the one new entry, and name equal to the supplied
event_name when it is present and non-empty, else event_handle. -/
theorem C4_new_event_appended (wm : PVal → WineEntry → Bool) (store : Store)
    (eh : String) (en : Option String) (p : Product) (now : String)
    (h : ∀ e ∈ store.events, e.collection_handle ≠ eh) :
    mergeCore wm store eh en p now =
      ⟨store.events ++ [⟨eh, jsOrStr en eh, jsSlice now 10, eh, [mkEntry p now]⟩]⟩ ∧
    (en = none → jsOrStr en eh = eh) ∧
    (en = some "" → jsOrStr en eh = eh) ∧
    (∀ s0, en = some s0 → s0 ≠ "" → jsOrStr en eh = s0) := by
  have hnone : jsFindIndex (eventMatch eh) store.events = none := by
    refine jsFindIndex_eq_none (fun e he => ?_)
    exact beq_eq_false_iff_ne.mpr (h e he)
  refine ⟨?_, ?_, ?_, ?_⟩
  · simp only [mergeCore, hnone]
    rfl
  · rintro rfl; rfl
  · rintro rfl; rfl
  · rintro s0 rfl hs0
    simp [jsOrStr, hs0]

/-- C5: the entry written by either merge has product_id equal to the
numeric coercion of the submitted product_id, handle and title equal to
the supplied values or "" when absent, updated_at equal to the current
instant, rating kept exactly when the submitted rating is a number (null
otherwise), and note equal to the supplied note truncated to at most 2000
characters: a longer note is cut to exactly its first 2000 characters, a
shorter one passes through unchanged.  The built entry is what the wine
list update stores (replaced in place or appended). -/
theorem C5_entry_fields (p : Product) (now : String) :
    (mkEntry p now).product_id = jsNumber p.product_id ∧
    (mkEntry p now).handle = jsOrEmpty p.handle ∧
    (mkEntry p now).title = jsOrEmpty p.title ∧
    (mkEntry p now).updated_at = now ∧
    (∀ x : Rat, p.rating = some (.num x) → (mkEntry p now).rating = some x) ∧
    ((∀ x : Rat, p.rating ≠ some (.num x)) → (mkEntry p now).rating = none) ∧
    (p.note = none → (mkEntry p now).note = "") ∧
    (mkEntry p now).note.length ≤ 2000 ∧
    (∀ s0, p.note = some s0 →
      (mkEntry p now).note = jsSlice s0 2000 ∧
      (s0.length ≤ 2000 → (mkEntry p now).note = s0) ∧
      (2000 < s0.length → (mkEntry p now).note.length = 2000)) ∧
    (∀ m ws, mkEntry p now ∈ updateWines m ws (mkEntry p now)) := by
  refine ⟨rfl, rfl, rfl, rfl, ?_, ?_, ?_, ?_, ?_, ?_⟩
  · intro x hx
    simp [mkEntry, hx]
  · intro hall
    cases hr : p.rating with
    | none => simp [mkEntry, hr]
    | some v =>
        cases v with
        | num x => exact absurd hr (hall x)
        | str s0 => simp [mkEntry, hr]
        | other => simp [mkEntry, hr]
  · intro hn
    simp only [mkEntry, hn, jsOrEmpty]
    decide
  · show (jsSlice (jsOrEmpty p.note) 2000).length ≤ 2000
    rw [length_jsSlice]
    exact min_le_left _ _
  · intro s0 hs
    refine ⟨by simp [mkEntry, hs, jsOrEmpty], ?_, ?_⟩
    · intro hle
      show jsSlice (jsOrEmpty p.note) 2000 = s0
      rw [hs]
      simp only [jsOrEmpty]
      exact jsSlice_of_le hle
    · intro hgt
      show (jsSlice (jsOrEmpty p.note) 2000).length = 2000
      rw [hs]
      simp only [jsOrEmpty]
      rw [length_jsSlice]
      omega
  · intro m ws
    by_cases hf : (jsFindIndex m ws).isSome
    · obtain ⟨i, hi⟩ := Option.isSome_iff_exists.mp hf
      simp only [updateWines, hi]
      exact mem_set_self _ (jsFindIndex_some_lt hi)
    · have hn : jsFindIndex m ws = none := Option.not_isSome_iff_eq_none.mp hf
      simp only [updateWines, hn]
      exact List.mem_append_right _ (List.mem_singleton.mpr rfl)

/-- C5 (witness): a 2001-character note is stored as its 2000-character
truncation. -/
theorem C5_entry_fields_witness :
    (mkEntry c5Product "2024-01-01T00:00:00.000Z").note = jsSlice c5Note 2000 ∧
    (mkEntry c5Product "2024-01-01T00:00:00.000Z").note.length = 2000 := by
  have h := (C5_entry_fields c5Product "2024-01-01T00:00:00.000Z").2.2.2.2.2.2.2.2.1 c5Note rfl
  refine ⟨h.1, h.2.2 ?_⟩
  show 2000 < c5Note.length
  show 2000 < (List.replicate 2001 'a').length
  simp

/-- C7: the proxy trust verifier accepts a request exactly when the
x-shopify-proxy-signature header equals the base64 HMAC-SHA256 digest of
the raw body under the shared secret; concretely, the signature computed
over the body "hello" with the secret passes for "hello" and fails for
"hellp", which differs in one byte. -/
theorem C7_signature_verification :
    (∀ (secret rawBody : List Nat) (sig : Option (List Nat)),
      verifyProxySignature secret sig rawBody = true ↔
        sig.getD [] = hmacSha256Base64 secret rawBody) ∧
    verifyProxySignature [115] (some (hmacSha256Base64 [115] [104, 101, 108, 108, 111]))
      [104, 101, 108, 108, 111] = true ∧
    verifyProxySignature [115] (some (hmacSha256Base64 [115] [104, 101, 108, 108, 111]))
      [104, 101, 108, 108, 112] = false := by
  have hiff : ∀ (secret rawBody : List Nat) (sig : Option (List Nat)),
      verifyProxySignature secret sig rawBody = true ↔
        sig.getD [] = hmacSha256Base64 secret rawBody := by
    intro secret rawBody sig
    simp only [verifyProxySignature, ite_self, beq_iff_eq]
    exact eq_comm
  exact ⟨hiff, (hiff _ _ _).mpr rfl, by decide⟩

/-- C9: a direct request whose Origin header is not in the allow-list is
answered with 401 "Origin not allowed" and the trace of remote calls is
empty: no customer read, no email verification, no write, for every
possible remote outcome. -/
theorem C9_disallowed_origin_no_remote_calls (shop : String) (origin : Option String)
    (body : Option DirectBody) (er : GqlResp (Option String)) (rr : GqlResp StoredVal)
    (wr : GqlResp (List String)) (now : String)
    (h : originAllowed shop origin = false) :
    DirectRoute.POST shop origin body er rr wr now =
      (.ok (bad "Origin not allowed" 401), []) := by
  simp [DirectRoute.POST, h]

/-- C9 (witness): a concrete disallowed origin is rejected with an empty
remote-call trace. -/
theorem C9_disallowed_origin_no_remote_calls_witness :
    originAllowed "famelia-wine.myshopify.com" (some "https://evil.example") = false ∧
    DirectRoute.POST "famelia-wine.myshopify.com" (some "https://evil.example") none
      ⟨true, none, "", none⟩ ⟨true, none, "", .absent⟩ ⟨true, none, "", []⟩ "T" =
      (.ok (bad "Origin not allowed" 401), []) :=
  ⟨by decide,
   C9_disallowed_origin_no_remote_calls "famelia-wine.myshopify.com"
     (some "https://evil.example") none ⟨true, none, "", none⟩ ⟨true, none, "", .absent⟩
     ⟨true, none, "", []⟩ "T" (by decide)⟩

/-- C10: when an event with the submitted collection_handle exists (found
at index j), either merge keeps the store's length, leaves every event at
an index other than j completely unchanged, and at j keeps the event's id,
name, date and collection_handle (a supplied event_name is ignored),
changing only its wine list. -/
theorem C10_existing_event_preserves_meta_and_others
    (wm : PVal → WineEntry → Bool) (store : Store) (eh : String) (en : Option String)
    (p : Product) (now : String) (j : Nat)
    (h : jsFindIndex (eventMatch eh) store.events = some j) :
    (mergeCore wm store eh en p now).events.length = store.events.length ∧
    (∀ i, i ≠ j → (mergeCore wm store eh en p now).events[i]? = store.events[i]?) ∧
    (∀ ev, store.events[j]? = some ev →
      (mergeCore wm store eh en p now).events[j]? =
        some ⟨ev.id, ev.name, ev.date, ev.collection_handle,
              updateWines (wm p.product_id) ev.wines (mkEntry p now)⟩) := by
  have hme : (mergeCore wm store eh en p now).events =
      listModify (fun e => ⟨e.id, e.name, e.date, e.collection_handle,
        updateWines (wm p.product_id) e.wines (mkEntry p now)⟩) store.events j := by
    simp only [mergeCore, h]
  refine ⟨?_, ?_, ?_⟩
  · rw [hme, listModify_length]
  · intro i hij
    rw [hme, getElem?_listModify_ne _ _ hij]
  · intro ev hev
    rw [hme, getElem?_listModify_self, hev]
    rfl

/-- C10 (witness): a resubmission into the second of two events, with an
event_name supplied, leaves the first event unchanged. -/
theorem C10_existing_event_preserves_meta_and_others_witness :
    jsFindIndex (eventMatch "b") c10Store.events = some 1 ∧
    (mergeCore ProxyRoute.wineMatch c10Store "b" (some "ignored") c10Product "T").events[0]? =
      c10Store.events[0]? :=
  ⟨by decide,
   (C10_existing_event_preserves_meta_and_others ProxyRoute.wineMatch c10Store "b"
     (some "ignored") c10Product "T" 1 (by decide)).2.1 0 (by decide)⟩

/-- C3 (counterexample): a remote read whose HTTP response is not ok makes
shopifyGraphQL throw, and the handler has no try/catch around it: the
failure propagates out of the handler as a thrown error instead of being
returned as an HTTP 500 {ok:false, error} JSON response, refuting the
claim for this request and remote outcome. -/
theorem C3_counterexample_remote_failure_escapes :
    (DirectRoute.POST "famelia-wine.myshopify.com" (some "https://famelia.com") (some c3Body)
      ⟨true, none, "x", some "a@b.com"⟩ ⟨false, none, "read failed", .absent⟩
      ⟨true, none, "x", []⟩ "T").1 = Except.error "read failed" := by decide

/-- C3 (amended): every response either handler itself constructs has body
{ok:false, error} or {ok:true}, and write-reported userErrors yield HTTP
500 with the semicolon-joined messages; but a remote non-success or
errors response at any round-trip makes shopifyGraphQL throw and the
handlers do not catch it: that failure propagates out of the handler
(carrying the stringified remote error) instead of becoming an HTTP 500
JSON response. -/
theorem C3_error_handling_as_implemented
    (secret : List Nat) (lcid : Option String) (sig : Option (List Nat)) (raw : List Nat)
    (pl : Option Payload) (rr : GqlResp StoredVal) (wr : GqlResp (List String)) (now : String)
    (shop : String) (origin : Option String) (b : DirectBody)
    (er : GqlResp (Option String)) (rr2 : GqlResp StoredVal) (wr2 : GqlResp (List String)) :
    (verifyProxySignature secret sig raw = true →
     truthyOptStr lcid = true →
     proxyFieldsOk (pl.getD emptyPayload) = true →
      (gqlFail rr = true →
        (ProxyRoute.POST secret lcid sig raw pl rr wr now).1 = .error (gqlMsg rr)) ∧
      (gqlFail rr = false → gqlFail wr = true →
        (ProxyRoute.POST secret lcid sig raw pl rr wr now).1 = .error (gqlMsg wr)) ∧
      (gqlFail rr = false → gqlFail wr = false → wr.data ≠ [] →
        (ProxyRoute.POST secret lcid sig raw pl rr wr now).1 =
          .ok ⟨500, .okFalse (String.intercalate "; " wr.data)⟩) ∧
      (gqlFail rr = false → gqlFail wr = false → wr.data = [] →
        (ProxyRoute.POST secret lcid sig raw pl rr wr now).1 = .ok ⟨200, .okTrue⟩)) ∧
    (originAllowed shop origin = true →
     directFieldsOk b = true →
      (gqlFail er = true →
        (DirectRoute.POST shop origin (some b) er rr2 wr2 now).1 = .error (gqlMsg er)) ∧
      (gqlFail er = false → emailRejects er.data (jsOrEmpty b.customer_email) = false →
        (gqlFail rr2 = true →
          (DirectRoute.POST shop origin (some b) er rr2 wr2 now).1 = .error (gqlMsg rr2)) ∧
        (gqlFail rr2 = false → gqlFail wr2 = true →
          (DirectRoute.POST shop origin (some b) er rr2 wr2 now).1 = .error (gqlMsg wr2)) ∧
        (gqlFail rr2 = false → gqlFail wr2 = false → wr2.data ≠ [] →
          (DirectRoute.POST shop origin (some b) er rr2 wr2 now).1 =
            .ok (bad (String.intercalate "; " wr2.data) 500)) ∧
        (gqlFail rr2 = false → gqlFail wr2 = false → wr2.data = [] →
          (DirectRoute.POST shop origin (some b) er rr2 wr2 now).1 = .ok ⟨200, .okTrue⟩))) := by
  constructor
  · intro h1 h2 h3
    refine ⟨?_, ?_, ?_, ?_⟩
    · intro hr
      simp [ProxyRoute.POST, shopifyGraphQL, h1, h2, h3, hr]
    · intro hr hw
      simp [ProxyRoute.POST, shopifyGraphQL, h1, h2, h3, hr, hw]
    · intro hr hw hd
      cases hwd : wr.data with
      | nil => exact absurd hwd hd
      | cons a as =>
          simp [ProxyRoute.POST, shopifyGraphQL, h1, h2, h3, hr, hw, hwd]
    · intro hr hw hd
      simp [ProxyRoute.POST, shopifyGraphQL, h1, h2, h3, hr, hw, hd]
  · intro h1 h2
    constructor
    · intro he
      simp [DirectRoute.POST, shopifyGraphQL, h1, h2, he]
    · intro he hrej
      refine ⟨?_, ?_, ?_, ?_⟩
      · intro hr
        simp [DirectRoute.POST, shopifyGraphQL, h1, h2, he, hrej, hr]
      · intro hr hw
        simp [DirectRoute.POST, shopifyGraphQL, h1, h2, he, hrej, hr, hw]
      · intro hr hw hd
        cases hwd : wr2.data with
        | nil => exact absurd hwd hd
        | cons a as =>
            simp [DirectRoute.POST, shopifyGraphQL, bad, h1, h2, he, hrej, hr, hw, hwd]
      · intro hr hw hd
        simp [DirectRoute.POST, shopifyGraphQL, h1, h2, he, hrej, hr, hw, hd]

/-- C3 (witness): write-time userErrors on a concrete direct request
produce HTTP 500 with the semicolon-joined messages. -/
theorem C3_error_handling_as_implemented_witness :
    (DirectRoute.POST "famelia-wine.myshopify.com" (some "https://famelia.com") (some c3Body)
      ⟨true, none, "x", some "a@b.com"⟩ ⟨true, none, "x", .absent⟩
      ⟨true, none, "x", ["boom", "bam"]⟩ "T").1 = .ok (bad "boom; bam" 500) := by
  have h := (C3_error_handling_as_implemented [] none none [] none ⟨true, none, "", .absent⟩
      ⟨true, none, "", []⟩ "T" "famelia-wine.myshopify.com" (some "https://famelia.com") c3Body
      ⟨true, none, "x", some "a@b.com"⟩ ⟨true, none, "x", .absent⟩
      ⟨true, none, "x", ["boom", "bam"]⟩).2 (by decide) (by decide)
  have h2 := (h.2 (by decide) (by decide)).2.2.1 (by decide) (by decide) (by decide)
  exact h2.trans (by decide)

/-- C6: a malformed stored metafield value makes either handler start from
the empty store and proceed exactly as for an absent value; with an ok
read and a clean write the request completes with 200 {ok:true}; no error
is raised or surfaced for the malformed stored document. -/
theorem C6_malformed_store_treated_as_empty
    (secret : List Nat) (lcid : Option String) (sig : Option (List Nat)) (raw : List Nat)
    (pl : Option Payload) (resOk : Bool) (errs : Option String) (rj : String)
    (wr : GqlResp (List String)) (now : String)
    (shop : String) (origin : Option String) (body : Option DirectBody)
    (er : GqlResp (Option String)) (wr2 : GqlResp (List String)) :
    loadStore .malformed = ⟨[]⟩ ∧
    loadStore .absent = ⟨[]⟩ ∧
    ProxyRoute.POST secret lcid sig raw pl ⟨resOk, errs, rj, .malformed⟩ wr now =
      ProxyRoute.POST secret lcid sig raw pl ⟨resOk, errs, rj, .absent⟩ wr now ∧
    DirectRoute.POST shop origin body er ⟨resOk, errs, rj, .malformed⟩ wr2 now =
      DirectRoute.POST shop origin body er ⟨resOk, errs, rj, .absent⟩ wr2 now ∧
    (verifyProxySignature secret sig raw = true → truthyOptStr lcid = true →
     proxyFieldsOk (pl.getD emptyPayload) = true → gqlFail wr = false → wr.data = [] →
     (ProxyRoute.POST secret lcid sig raw pl ⟨true, none, rj, .malformed⟩ wr now).1 =
       .ok ⟨200, .okTrue⟩) := by
  refine ⟨rfl, rfl, ?_, ?_, ?_⟩
  · cases resOk <;> cases errs <;>
      simp [ProxyRoute.POST, shopifyGraphQL, gqlFail, gqlMsg, loadStore]
  · cases resOk <;> cases errs <;>
      simp [DirectRoute.POST, shopifyGraphQL, gqlFail, gqlMsg, loadStore]
  · intro h1 h2 h3 hw hd
    obtain ⟨wok, werrs, wrj2, wdata⟩ := wr
    cases wok <;> cases werrs <;>
      simp_all [ProxyRoute.POST, shopifyGraphQL, gqlFail, gqlMsg, loadStore]

/-- C6 (witness): an end-to-end proxy request over a malformed stored value
succeeds with 200 {ok:true}. -/
theorem C6_malformed_store_treated_as_empty_witness :
    (ProxyRoute.POST [115] (some "42") (some (hmacSha256Base64 [115] [104, 101, 108, 108, 111]))
      [104, 101, 108, 108, 111] (some c6Payload) ⟨true, none, "x", .malformed⟩
      ⟨true, none, "", []⟩ "T").1 = .ok ⟨200, .okTrue⟩ :=
  (C6_malformed_store_treated_as_empty [115] (some "42")
      (some (hmacSha256Base64 [115] [104, 101, 108, 108, 111])) [104, 101, 108, 108, 111]
      (some c6Payload) true none "x" ⟨true, none, "", []⟩ "T"
      "famelia-wine.myshopify.com" none none ⟨true, none, "", none⟩
      ⟨true, none, "", []⟩).2.2.2.2
    (by decide) (by decide) (by decide) (by decide) (by decide)

/-- C8: once the origin and required-field checks pass and the email query
succeeds, the direct handler has performed the email lookup, and it
rejects with 401 "Customer verification failed" exactly when no email is
on file or the on-file email differs from the supplied customer_email
under case-insensitive comparison; when they agree case-insensitively the
request is not rejected at this stage. -/
theorem C8_customer_email_verification
    (shop : String) (origin : Option String) (b : DirectBody)
    (er : GqlResp (Option String)) (rr : GqlResp StoredVal) (wr : GqlResp (List String))
    (now : String)
    (h1 : originAllowed shop origin = true) (h2 : directFieldsOk b = true)
    (h3 : gqlFail er = false) :
    RCall.verifyEmail ∈ (DirectRoute.POST shop origin (some b) er rr wr now).2 ∧
    ((DirectRoute.POST shop origin (some b) er rr wr now).1 =
        .ok (bad "Customer verification failed" 401) ↔
      ∀ e, er.data = some e → jsLower e ≠ jsLower (jsOrEmpty b.customer_email)) := by
  have hsup : jsOrEmpty b.customer_email ≠ "" := by
    cases hce : b.customer_email with
    | none => simp [directFieldsOk, hce, truthyOptStr] at h2
    | some s =>
        simp only [directFieldsOk, hce, truthyOptStr, Bool.and_eq_true, bne_iff_ne] at h2
        simp only [jsOrEmpty]
        tauto
  have her : shopifyGraphQL er = .ok er.data := by
    simp [shopifyGraphQL, h3]
  by_cases hrej : emailRejects er.data (jsOrEmpty b.customer_email) = true
  · constructor
    · simp [DirectRoute.POST, h1, h2, her, hrej]
    · constructor
      · intro _
        exact (emailRejects_iff er.data _ hsup).mp hrej
      · intro _
        simp [DirectRoute.POST, bad, h1, h2, her, hrej]
  · rw [Bool.not_eq_true] at hrej
    have hnotR : ¬ ∀ e, er.data = some e → jsLower e ≠ jsLower (jsOrEmpty b.customer_email) := by
      intro hr
      have hco := (emailRejects_iff er.data _ hsup).mpr hr
      rw [hrej] at hco
      cases hco
    refine ⟨?_, ?_, ?_⟩
    · cases hsr : shopifyGraphQL rr with
      | error m => simp [DirectRoute.POST, h1, h2, her, hrej, hsr]
      | ok sv =>
          cases hsw : shopifyGraphQL wr with
          | error m => simp [DirectRoute.POST, h1, h2, her, hrej, hsr, hsw]
          | ok es =>
              cases es with
              | nil => simp [DirectRoute.POST, h1, h2, her, hrej, hsr, hsw]
              | cons e0 es0 => simp [DirectRoute.POST, h1, h2, her, hrej, hsr, hsw]
    · intro hL
      cases hsr : shopifyGraphQL rr with
      | error m => simp [DirectRoute.POST, h1, h2, her, hrej, hsr] at hL
      | ok sv =>
          cases hsw : shopifyGraphQL wr with
          | error m => simp [DirectRoute.POST, h1, h2, her, hrej, hsr, hsw] at hL
          | ok es =>
              cases es with
              | nil => simp [DirectRoute.POST, bad, h1, h2, her, hrej, hsr, hsw] at hL
              | cons e0 es0 => simp [DirectRoute.POST, bad, h1, h2, her, hrej, hsr, hsw] at hL
    · intro hR
      exact absurd hR hnotR

/-- C8 (witness): with no email on file the concrete request is rejected
with 401 "Customer verification failed". -/
theorem C8_customer_email_verification_witness :
    (DirectRoute.POST "famelia-wine.myshopify.com" (some "https://famelia.com") (some c8Body)
      ⟨true, none, "x", none⟩ ⟨true, none, "x", .absent⟩ ⟨true, none, "x", []⟩ "T").1 =
      .ok (bad "Customer verification failed" 401) :=
  ((C8_customer_email_verification "famelia-wine.myshopify.com" (some "https://famelia.com")
      c8Body ⟨true, none, "x", none⟩ ⟨true, none, "x", .absent⟩ ⟨true, none, "x", []⟩ "T"
      (by decide) (by decide) (by decide)).2).mpr (fun e he => nomatch he)

/-- C4 (witness): a concrete new-event submission appends exactly one event
after the existing one, named by the supplied non-empty event_name, dated
by the first ten characters of the instant, holding the single new entry. -/
theorem C4_new_event_appended_witness :
    mergeCore DirectRoute.wineMatch ⟨[⟨"other", "O", "2024-01-01", "other", []⟩]⟩ "spring-2024"
      (some "Spring") c4Product "2024-05-05T12:00:00.000Z" =
      ⟨[⟨"other", "O", "2024-01-01", "other", []⟩,
        ⟨"spring-2024", "Spring", "2024-05-05", "spring-2024",
         [⟨some 7, "", "", none, "", "2024-05-05T12:00:00.000Z"⟩]⟩]⟩ :=
  ((C4_new_event_appended DirectRoute.wineMatch ⟨[⟨"other", "O", "2024-01-01", "other", []⟩]⟩
      "spring-2024" (some "Spring") c4Product "2024-05-05T12:00:00.000Z"
      (by decide)).1).trans (by decide)

/-- C7 (witness): the verifier accepts the correctly signed empty body. -/
theorem C7_signature_verification_witness :
    verifyProxySignature [] (some (hmacSha256Base64 [] [])) [] = true :=
  (C7_signature_verification.1 [] [] (some (hmacSha256Base64 [] []))).mpr rfl
